import Mathlib

/-!
Verification of the Rayleigh-flow relations in
`gas_dynamics/rayleigh/rayleigh.py`: the direct property-ratio functions,
their sonic-reference ("star") variants, the closed-form and root-search
Mach-recovery functions, and the heat-flux computation.

Python float arithmetic is modelled as exact rational arithmetic wherever
the source only uses field operations.  The stagnation-pressure formulas
raise to the real exponent `gamma/(gamma-1)`, so they are modelled over the
reals with `Real.rpow`; the closed-form pressure-ratio inversion applies
`** .5`, which Python evaluates to a complex number when the base is
negative, so that function is modelled as returning a complex number.
The nonlinear solver (scipy's `fsolve`) is external to the repository and
is modelled as an explicit function argument taking the zero-function and
the initial guess.
-/

/-- Modelled from the spec: the fluid property provider (module
`gas_dynamics.fluids`, which is not among the supplied sources) is a value
object exposing `gamma`, the ratio of specific heats (dimensionless, > 1),
and `cp`, the specific heat at constant pressure (> 0). -/
structure fluid where
  gamma : ℚ
  cp : ℚ

/-- Modelled from the spec: the library's default working fluid, standard
air with ratio of specific heats 1.4; `cp = 1000` as set in the source's
heat-flux example. -/
def air : fluid := { gamma := 7/5, cp := 1000 }

/-- Pressure ratio p2/p1 between two Mach numbers (source lines 48-50). -/
def rayleigh_pressure_ratio (M1 M2 : ℚ) (gas : fluid) : ℚ :=
  (1 + gas.gamma * M1^2) / (1 + gas.gamma * M2^2)

/-- Temperature ratio T2/T1 between two Mach numbers (source lines 90-92). -/
def rayleigh_temperature_ratio (M1 M2 : ℚ) (gas : fluid) : ℚ :=
  ((1 + gas.gamma * M1^2) / (1 + gas.gamma * M2^2))^2 * M2^2 / M1^2

/-- Density ratio rho2/rho1 between two Mach numbers (source lines 129-131). -/
def rayleigh_density_ratio (M1 M2 : ℚ) (gas : fluid) : ℚ :=
  (1 + gas.gamma * M2^2) / (1 + gas.gamma * M1^2) * M1^2 / M2^2

/-- Stagnation temperature ratio Tt2/Tt1 between two Mach numbers
(source lines 170-172). -/
def rayleigh_stagnation_temperature_ratio (M1 M2 : ℚ) (gas : fluid) : ℚ :=
  ((1 + gas.gamma * M1^2) / (1 + gas.gamma * M2^2))^2 * M2^2 / M1^2 *
    ((1 + (gas.gamma - 1)/2 * M2^2) / (1 + (gas.gamma - 1)/2 * M1^2))

/-- Stagnation pressure ratio pt2/pt1 between two Mach numbers
(source lines 212-214); the exponent `gamma/(gamma-1)` is a real power. -/
noncomputable def rayleigh_stagnation_pressure_ratio (M1 M2 : ℝ) (gas : fluid) : ℝ :=
  (1 + (gas.gamma : ℝ) * M1^2) / (1 + (gas.gamma : ℝ) * M2^2) *
    ((1 + ((gas.gamma : ℝ) - 1)/2 * M2^2) / (1 + ((gas.gamma : ℝ) - 1)/2 * M1^2))
      ^ ((gas.gamma : ℝ) / ((gas.gamma : ℝ) - 1))

/-- Sonic-reference pressure ratio p/p* (source lines 461-463). -/
def rayleigh_pressure_star_ratio (M : ℚ) (gas : fluid) : ℚ :=
  (gas.gamma + 1) / (1 + gas.gamma * M^2)

/-- Sonic-reference temperature ratio T/T* (source lines 501-503). -/
def rayleigh_temperature_star_ratio (M : ℚ) (gas : fluid) : ℚ :=
  M^2 * (1 + gas.gamma)^2 / (1 + gas.gamma * M^2)^2

/-- Sonic-reference density ratio rho/rho* (source lines 538-540). -/
def rayleigh_density_star_ratio (M : ℚ) (gas : fluid) : ℚ :=
  (1 + gas.gamma * M^2) / ((1 + gas.gamma) * M^2)

/-- Sonic-reference stagnation pressure ratio pt/pt* (source lines 579-581). -/
noncomputable def rayleigh_stagnation_pressure_star_ratio (M : ℝ) (gas : fluid) : ℝ :=
  (1 + (gas.gamma : ℝ)) / (1 + (gas.gamma : ℝ) * M^2) *
    ((1 + ((gas.gamma : ℝ) - 1)/2 * M^2) / (((gas.gamma : ℝ) + 1)/2))
      ^ ((gas.gamma : ℝ) / ((gas.gamma : ℝ) - 1))

/-- Sonic-reference stagnation temperature ratio Tt/Tt*
(source lines 620-622). -/
def rayleigh_stagnation_temperature_star_ratio (M : ℚ) (gas : fluid) : ℚ :=
  2 * (gas.gamma + 1) * M^2 / (1 + gas.gamma * M^2)^2 *
    (1 + (gas.gamma - 1)/2 * M^2)

/-- Heat per unit mass between two stagnation temperatures
(source lines 660-662). -/
def rayleigh_heat_flux (Tt1 Tt2 : ℚ) (gas : fluid) : ℚ :=
  gas.cp * (Tt2 - Tt1)

/-- Python float `x ** .5`: the principal square root, which is the real
`Real.sqrt x` for a nonnegative base and the purely imaginary
`Real.sqrt (-x) * I` for a negative base (Python produces a complex value
there instead of raising an error). -/
noncomputable def float_pow_half (x : ℝ) : ℂ :=
  if 0 ≤ x then (Real.sqrt x : ℂ) else (Real.sqrt (-x) : ℂ) * Complex.I

/-- Closed-form Mach recovery from a pressure ratio (source lines 255-257):
`M2 = (((p1*(1+gamma*M1**2))/p2 - 1)/gamma)**.5`. -/
noncomputable def rayleigh_mach_from_pressure_ratio (M1 p1 p2 : ℚ) (gas : fluid) : ℂ :=
  float_pow_half (((p1 * (1 + gas.gamma * M1^2) / p2 - 1) / gas.gamma : ℚ) : ℝ)

/-- Root-search Mach recovery from a temperature ratio
(source lines 299-312), with the external nonlinear solver abstracted as
the argument `solver` taking the zero-function and the initial guess. -/
def rayleigh_mach_from_temperature_ratio (solver : (ℚ → ℚ) → ℚ → ℚ)
    (M T1 T2 : ℚ) (gas : fluid) : ℚ :=
  let T2_T1 := T2 / T1
  let zero := fun M2 => rayleigh_temperature_ratio M M2 gas - T2_T1
  let x0 : ℚ := if M < 1 then 1/2 else if 1 < M then 3/2 else 1
  solver zero x0

/-- Root-search Mach recovery from a stagnation temperature ratio
(source lines 355-368), with the external nonlinear solver abstracted as
the argument `solver`. -/
def rayleigh_mach_from_stagnation_temperature_ratio (solver : (ℚ → ℚ) → ℚ → ℚ)
    (M Tt1 Tt2 : ℚ) (gas : fluid) : ℚ :=
  let Tt2_Tt1 := Tt2 / Tt1
  let zero := fun M2 => rayleigh_stagnation_temperature_ratio M M2 gas - Tt2_Tt1
  let x0 : ℚ := if M < 1 then 1/2 else if 1 < M then 3/2 else 1
  solver zero x0

/-- Root-search Mach recovery from a stagnation pressure ratio
(source lines 410-423), with the external nonlinear solver abstracted as
the argument `solver`. -/
noncomputable def rayleigh_mach_from_stagnation_pressure_ratio
    (solver : (ℝ → ℝ) → ℝ → ℝ) (M pt1 pt2 : ℝ) (gas : fluid) : ℝ :=
  let pt2_pt1 := pt2 / pt1
  let zero := fun M2 => rayleigh_stagnation_pressure_ratio M M2 gas - pt2_pt1
  let x0 : ℝ := if M < 1 then 1/2 else if 1 < M then 3/2 else 1
  solver zero x0

/-- C1: for every pair of Mach numbers and every fluid,
`rayleigh_pressure_ratio` returns (1 + γ·M1²)/(1 + γ·M2²); at M1 = 3,
M2 = 2 with the default air fluid (γ = 1.4) the value is exactly 68/33,
which agrees with the quoted 2.0606060606060606 (the nearest double) to
within 10⁻¹⁶. -/
theorem rayleigh_pressure_ratio_formula :
    (∀ (M1 M2 : ℚ) (gas : fluid),
      rayleigh_pressure_ratio M1 M2 gas
        = (1 + gas.gamma * M1^2) / (1 + gas.gamma * M2^2)) ∧
    rayleigh_pressure_ratio 3 2 air = 68/33 ∧
    |rayleigh_pressure_ratio 3 2 air - 2.0606060606060606| < 1/10^16 := by
  refine ⟨fun M1 M2 gas => rfl, ?_, ?_⟩
  · norm_num [rayleigh_pressure_ratio, air]
  · rw [abs_sub_lt_iff]
    constructor <;> norm_num [rayleigh_pressure_ratio, air]

/-- C2: at M1 = 0.8, p1 = 1, p2 = 100 with the default air fluid, the
radicand of the closed-form pressure-ratio inversion is negative, and the
function returns a genuinely complex value (nonzero imaginary part) instead
of surfacing a domain error. -/
theorem rayleigh_mach_from_pressure_ratio_complex_result :
    ((1 : ℚ) * (1 + air.gamma * (4/5)^2) / 100 - 1) / air.gamma < 0 ∧
    (rayleigh_mach_from_pressure_ratio (4/5) 1 100 air).im ≠ 0 := by
  have hq : ((1 : ℚ) * (1 + air.gamma * (4/5)^2) / 100 - 1) / air.gamma
      = -12263/17500 := by norm_num [air]
  refine ⟨by rw [hq]; norm_num, ?_⟩
  unfold rayleigh_mach_from_pressure_ratio float_pow_half
  rw [hq]
  have hx : (((-12263/17500 : ℚ)) : ℝ) = -(12263/17500 : ℝ) := by norm_num
  rw [hx, if_neg (by norm_num), neg_neg]
  simp only [Complex.mul_im, Complex.ofReal_re, Complex.ofReal_im,
    Complex.I_re, Complex.I_im, mul_one, mul_zero, zero_mul, add_zero]
  exact ne_of_gt (Real.sqrt_pos.mpr (by norm_num))

/-- C3 counterexample: at M = 2 with the default air fluid,
`rayleigh_pressure_ratio 2 1` is 11/4 while `rayleigh_pressure_star_ratio 2`
is 4/11, so the direct ratio evaluated at (M, 1.0) is not the star ratio
(the two are reciprocals). -/
theorem rayleigh_star_ratio_claim_counterexample :
    rayleigh_pressure_ratio 2 1 air ≠ rayleigh_pressure_star_ratio 2 air := by
  norm_num [rayleigh_pressure_ratio, rayleigh_pressure_star_ratio, air]

/-- C3 (amended): each star-ratio function is the corresponding direct
ratio with the sonic state as region 1, i.e. ratio(1.0, M) = star(M) for
pressure, temperature, density, stagnation temperature and stagnation
pressure (equivalently, ratio(M, 1.0) is the reciprocal of the star
ratio). -/
theorem rayleigh_star_ratio_consistency (M : ℚ) (gas : fluid)
    (hg : 1 < gas.gamma) (hM : M ≠ 0) :
    rayleigh_pressure_ratio 1 M gas = rayleigh_pressure_star_ratio M gas ∧
    rayleigh_temperature_ratio 1 M gas = rayleigh_temperature_star_ratio M gas ∧
    rayleigh_density_ratio 1 M gas = rayleigh_density_star_ratio M gas ∧
    rayleigh_stagnation_temperature_ratio 1 M gas
      = rayleigh_stagnation_temperature_star_ratio M gas ∧
    rayleigh_stagnation_pressure_ratio 1 (M : ℝ) gas
      = rayleigh_stagnation_pressure_star_ratio (M : ℝ) gas := by
  have hgp : (0:ℚ) < gas.gamma := lt_trans one_pos hg
  have hdM : (1 + gas.gamma * M^2) ≠ 0 := by
    have := mul_nonneg hgp.le (sq_nonneg M)
    intro h; nlinarith
  have hd1 : (1 + gas.gamma * (1:ℚ)^2) ≠ 0 := by intro h; nlinarith
  have hcM : (1 + (gas.gamma - 1)/2 * M^2) ≠ 0 := by
    have := mul_nonneg (by linarith : (0:ℚ) ≤ (gas.gamma - 1)/2) (sq_nonneg M)
    intro h; nlinarith
  have hc1 : (1 + (gas.gamma - 1)/2 * (1:ℚ)^2) ≠ 0 := by intro h; nlinarith
  have h2g : (2 + (gas.gamma - 1)) ≠ 0 := by intro h; nlinarith
  have hgp1 : (gas.gamma + 1) ≠ 0 := by intro h; nlinarith
  refine ⟨?_, ?_, ?_, ?_, ?_⟩
  · unfold rayleigh_pressure_ratio rayleigh_pressure_star_ratio
    ring_nf
  · unfold rayleigh_temperature_ratio rayleigh_temperature_star_ratio
    field_simp
    ring
  · unfold rayleigh_density_ratio rayleigh_density_star_ratio
    field_simp
  · unfold rayleigh_stagnation_temperature_ratio
      rayleigh_stagnation_temperature_star_ratio
    field_simp
    ring
  · have e1 : (1 + (gas.gamma:ℝ) * (1:ℝ)^2) = 1 + (gas.gamma:ℝ) := by ring
    have e2 : (1 + ((gas.gamma:ℝ) - 1)/2 * (1:ℝ)^2) = ((gas.gamma:ℝ) + 1)/2 := by
      ring
    unfold rayleigh_stagnation_pressure_ratio
      rayleigh_stagnation_pressure_star_ratio
    rw [e1, e2]

/-- Witness for C3 (amended): the star-ratio consistency instantiated at
M = 2 with the default air fluid. -/
theorem rayleigh_star_ratio_consistency_witness :
    rayleigh_pressure_ratio 1 2 air = rayleigh_pressure_star_ratio 2 air ∧
    rayleigh_temperature_ratio 1 2 air = rayleigh_temperature_star_ratio 2 air ∧
    rayleigh_density_ratio 1 2 air = rayleigh_density_star_ratio 2 air ∧
    rayleigh_stagnation_temperature_ratio 1 2 air
      = rayleigh_stagnation_temperature_star_ratio 2 air ∧
    rayleigh_stagnation_pressure_ratio 1 ((2:ℚ) : ℝ) air
      = rayleigh_stagnation_pressure_star_ratio ((2:ℚ) : ℝ) air :=
  rayleigh_star_ratio_consistency 2 air (by norm_num [air]) (by norm_num)

/-- C4: each of the five direct ratio functions satisfies the reciprocal
identity ratio(M1, M2) = 1/ratio(M2, M1), for a fluid with γ > 1 and
nonzero Mach numbers. -/
theorem rayleigh_reciprocal_identity (M1 M2 : ℚ) (gas : fluid)
    (hg : 1 < gas.gamma) (h1 : M1 ≠ 0) (h2 : M2 ≠ 0) :
    rayleigh_pressure_ratio M1 M2 gas = 1 / rayleigh_pressure_ratio M2 M1 gas ∧
    rayleigh_temperature_ratio M1 M2 gas
      = 1 / rayleigh_temperature_ratio M2 M1 gas ∧
    rayleigh_density_ratio M1 M2 gas = 1 / rayleigh_density_ratio M2 M1 gas ∧
    rayleigh_stagnation_temperature_ratio M1 M2 gas
      = 1 / rayleigh_stagnation_temperature_ratio M2 M1 gas ∧
    rayleigh_stagnation_pressure_ratio (M1 : ℝ) (M2 : ℝ) gas
      = 1 / rayleigh_stagnation_pressure_ratio (M2 : ℝ) (M1 : ℝ) gas := by
  have hgp : (0:ℚ) < gas.gamma := lt_trans one_pos hg
  have hd1 : (1 + gas.gamma * M1^2) ≠ 0 := by
    have := mul_nonneg hgp.le (sq_nonneg M1); intro h; nlinarith
  have hd2 : (1 + gas.gamma * M2^2) ≠ 0 := by
    have := mul_nonneg hgp.le (sq_nonneg M2); intro h; nlinarith
  have hc1 : (1 + (gas.gamma - 1)/2 * M1^2) ≠ 0 := by
    have := mul_nonneg (by linarith : (0:ℚ) ≤ (gas.gamma - 1)/2) (sq_nonneg M1)
    intro h; nlinarith
  have hc2 : (1 + (gas.gamma - 1)/2 * M2^2) ≠ 0 := by
    have := mul_nonneg (by linarith : (0:ℚ) ≤ (gas.gamma - 1)/2) (sq_nonneg M2)
    intro h; nlinarith
  refine ⟨?_, ?_, ?_, ?_, ?_⟩
  · unfold rayleigh_pressure_ratio
    rw [one_div_div]
  · unfold rayleigh_temperature_ratio
    field_simp
  · unfold rayleigh_density_ratio
    field_simp
  · unfold rayleigh_stagnation_temperature_ratio
    field_simp
  · have hgr : (1:ℝ) < (gas.gamma : ℝ) := by exact_mod_cast hg
    have hb1 : (0:ℝ) < 1 + ((gas.gamma:ℝ) - 1)/2 * (M1:ℝ)^2 := by
      nlinarith [sq_nonneg (M1:ℝ)]
    have hb2 : (0:ℝ) < 1 + ((gas.gamma:ℝ) - 1)/2 * (M2:ℝ)^2 := by
      nlinarith [sq_nonneg (M2:ℝ)]
    unfold rayleigh_stagnation_pressure_ratio
    rw [one_div, mul_inv, inv_div,
      ← Real.inv_rpow (div_nonneg hb1.le hb2.le), inv_div]

/-- C5: the closed-form inversion is exact on real arithmetic: for p1 ≠ 0,
γ > 0 and M2 ≥ 0 (in particular whenever M2 lies on the same branch as
M1), feeding p2 = p1 · pressure_ratio(M1, M2) back into
`rayleigh_mach_from_pressure_ratio` recovers M2. -/
theorem rayleigh_mach_from_pressure_ratio_round_trip (M1 M2 p1 : ℚ)
    (gas : fluid) (hg : 0 < gas.gamma) (hM1 : M1 ≠ 0) (hp1 : p1 ≠ 0)
    (hM2 : 0 ≤ M2) :
    rayleigh_mach_from_pressure_ratio M1 p1
      (p1 * rayleigh_pressure_ratio M1 M2 gas) gas = (M2 : ℂ) := by
  have hd1 : (1 + gas.gamma * M1^2) ≠ 0 := by
    have := mul_nonneg hg.le (sq_nonneg M1); intro h; nlinarith
  have hd2 : (1 + gas.gamma * M2^2) ≠ 0 := by
    have := mul_nonneg hg.le (sq_nonneg M2); intro h; nlinarith
  unfold rayleigh_mach_from_pressure_ratio rayleigh_pressure_ratio
  have hq : (p1 * (1 + gas.gamma * M1^2)
        / (p1 * ((1 + gas.gamma * M1^2) / (1 + gas.gamma * M2^2))) - 1)
        / gas.gamma = M2^2 := by
    rw [div_sub_one (by exact mul_ne_zero hp1 (div_ne_zero hd1 hd2))]
    field_simp
    ring
  rw [hq]
  have hcast : (((M2^2 : ℚ)) : ℝ) = (M2:ℝ)^2 := by push_cast; ring
  rw [float_pow_half, hcast, if_pos (sq_nonneg _),
    Real.sqrt_sq (by exact_mod_cast hM2)]
  norm_cast

/-- Witness for C5: the round trip instantiated at M1 = 1/2, M2 = 3/10,
p1 = 2 with the default air fluid. -/
theorem rayleigh_mach_from_pressure_ratio_round_trip_witness :
    rayleigh_mach_from_pressure_ratio (1/2) 2
      (2 * rayleigh_pressure_ratio (1/2) (3/10) air) air = ((3/10 : ℚ) : ℂ) :=
  rayleigh_mach_from_pressure_ratio_round_trip (1/2) (3/10) 2 air
    (by norm_num [air]) (by norm_num) (by norm_num) (by norm_num)

/-- C6: each root-search inversion calls the solver with the residual
formed as the corresponding direct ratio at (M, M2) minus the target ratio
of the two raw property values, and with the initial guess chosen from the
known Mach number alone: 1/2 when M < 1, 3/2 when M > 1 and 1 when M = 1;
the last three conjuncts exhibit the guess on each branch for the
temperature variant. -/
theorem rayleigh_root_search_structure :
    ∀ (solverQ : (ℚ → ℚ) → ℚ → ℚ) (solverR : (ℝ → ℝ) → ℝ → ℝ)
      (M T1 T2 Tt1 Tt2 : ℚ) (MR pt1 pt2 : ℝ) (gas : fluid),
    rayleigh_mach_from_temperature_ratio solverQ M T1 T2 gas
      = solverQ (fun M2 => rayleigh_temperature_ratio M M2 gas - T2 / T1)
          (if M < 1 then 1/2 else if 1 < M then 3/2 else 1) ∧
    rayleigh_mach_from_stagnation_temperature_ratio solverQ M Tt1 Tt2 gas
      = solverQ
          (fun M2 => rayleigh_stagnation_temperature_ratio M M2 gas - Tt2 / Tt1)
          (if M < 1 then 1/2 else if 1 < M then 3/2 else 1) ∧
    rayleigh_mach_from_stagnation_pressure_ratio solverR MR pt1 pt2 gas
      = solverR
          (fun M2 => rayleigh_stagnation_pressure_ratio MR M2 gas - pt2 / pt1)
          (if MR < 1 then 1/2 else if 1 < MR then 3/2 else 1) ∧
    rayleigh_mach_from_temperature_ratio solverQ (1/2) T1 T2 gas
      = solverQ (fun M2 => rayleigh_temperature_ratio (1/2) M2 gas - T2 / T1)
          (1/2) ∧
    rayleigh_mach_from_temperature_ratio solverQ (3/2) T1 T2 gas
      = solverQ (fun M2 => rayleigh_temperature_ratio (3/2) M2 gas - T2 / T1)
          (3/2) ∧
    rayleigh_mach_from_temperature_ratio solverQ 1 T1 T2 gas
      = solverQ (fun M2 => rayleigh_temperature_ratio 1 M2 gas - T2 / T1) 1 := by
  intro solverQ solverR M T1 T2 Tt1 Tt2 MR pt1 pt2 gas
  refine ⟨rfl, rfl, rfl, ?_, ?_, ?_⟩
  · rw [rayleigh_mach_from_temperature_ratio, if_pos (by norm_num)]
  · rw [rayleigh_mach_from_temperature_ratio, if_neg (by norm_num),
      if_pos (by norm_num)]
  · rw [rayleigh_mach_from_temperature_ratio, if_neg (by norm_num),
      if_neg (by norm_num)]

/-- C7: the stagnation temperature ratio factors as the static temperature
ratio times (1+(γ-1)/2·M2²)/(1+(γ-1)/2·M1²); at M1 = 0.8, M2 = 0.3 with
the default air fluid it is exactly 85770063/238360688, which agrees with
the quoted 0.35983309042974404 to within 10⁻¹⁶. -/
theorem rayleigh_stagnation_temperature_ratio_formula (M1 M2 : ℚ)
    (gas : fluid) (h1 : M1 ≠ 0) (h2 : M2 ≠ 0) :
    rayleigh_stagnation_temperature_ratio M1 M2 gas
      = rayleigh_temperature_ratio M1 M2 gas
          * ((1 + (gas.gamma - 1)/2 * M2^2) / (1 + (gas.gamma - 1)/2 * M1^2)) ∧
    rayleigh_stagnation_temperature_ratio (4/5) (3/10) air
      = 85770063/238360688 ∧
    |rayleigh_stagnation_temperature_ratio (4/5) (3/10) air
      - 0.35983309042974404| < 1/10^16 := by
  refine ⟨rfl, ?_, ?_⟩
  · norm_num [rayleigh_stagnation_temperature_ratio, air]
  · rw [abs_sub_lt_iff]
    constructor <;> norm_num [rayleigh_stagnation_temperature_ratio, air]

/-- Witness for C7: the factorisation instantiated at M1 = 0.8, M2 = 0.3
with the default air fluid. -/
theorem rayleigh_stagnation_temperature_ratio_formula_witness :
    (rayleigh_stagnation_temperature_ratio (4/5) (3/10) air
      = rayleigh_temperature_ratio (4/5) (3/10) air
          * ((1 + (air.gamma - 1)/2 * (3/10:ℚ)^2)
              / (1 + (air.gamma - 1)/2 * (4/5:ℚ)^2)) ∧
    rayleigh_stagnation_temperature_ratio (4/5) (3/10) air
      = 85770063/238360688 ∧
    |rayleigh_stagnation_temperature_ratio (4/5) (3/10) air
      - 0.35983309042974404| < 1/10^16) :=
  rayleigh_stagnation_temperature_ratio_formula (4/5) (3/10) air
    (by norm_num) (by norm_num)

/-- C8: the heat flux is cp·(Tt2 − Tt1); for cp > 0 it is positive exactly
when the stagnation temperature rises and negative exactly when it falls;
at Tt1 = 280, Tt2 = 107.9 with cp = 1000 it is −172100. -/
theorem rayleigh_heat_flux_formula (Tt1 Tt2 : ℚ) (gas : fluid)
    (hc : 0 < gas.cp) :
    rayleigh_heat_flux Tt1 Tt2 gas = gas.cp * (Tt2 - Tt1) ∧
    (0 < rayleigh_heat_flux Tt1 Tt2 gas ↔ Tt1 < Tt2) ∧
    (rayleigh_heat_flux Tt1 Tt2 gas < 0 ↔ Tt2 < Tt1) ∧
    rayleigh_heat_flux 280 (1079/10) air = -172100 := by
  refine ⟨rfl, ?_, ?_, by norm_num [rayleigh_heat_flux, air]⟩
  · unfold rayleigh_heat_flux
    constructor <;> intro h <;> nlinarith
  · unfold rayleigh_heat_flux
    constructor <;> intro h <;> nlinarith

/-- Witness for C8: the heat-flux characterisation instantiated at
Tt1 = 280, Tt2 = 107.9 with the default air fluid (cp = 1000). -/
theorem rayleigh_heat_flux_formula_witness :
    (rayleigh_heat_flux 280 (1079/10) air = air.cp * (1079/10 - 280) ∧
    (0 < rayleigh_heat_flux 280 (1079/10) air ↔ (280:ℚ) < 1079/10) ∧
    (rayleigh_heat_flux 280 (1079/10) air < 0 ↔ (1079/10:ℚ) < 280) ∧
    rayleigh_heat_flux 280 (1079/10) air = -172100) :=
  rayleigh_heat_flux_formula 280 (1079/10) air (by norm_num [air])

/-- C9: all five direct ratio functions evaluate to exactly 1 at equal
Mach numbers, for a fluid with γ > 1 and M ≠ 0. -/
theorem rayleigh_ratio_one_at_equal_mach (M : ℚ) (gas : fluid)
    (hg : 1 < gas.gamma) (hM : M ≠ 0) :
    rayleigh_pressure_ratio M M gas = 1 ∧
    rayleigh_temperature_ratio M M gas = 1 ∧
    rayleigh_density_ratio M M gas = 1 ∧
    rayleigh_stagnation_temperature_ratio M M gas = 1 ∧
    rayleigh_stagnation_pressure_ratio (M : ℝ) (M : ℝ) gas = 1 := by
  have hgp : (0:ℚ) < gas.gamma := lt_trans one_pos hg
  have hd : (1 + gas.gamma * M^2) ≠ 0 := by
    have := mul_nonneg hgp.le (sq_nonneg M); intro h; nlinarith
  have hc : (1 + (gas.gamma - 1)/2 * M^2) ≠ 0 := by
    have := mul_nonneg (by linarith : (0:ℚ) ≤ (gas.gamma - 1)/2) (sq_nonneg M)
    intro h; nlinarith
  have hdR : (1 + (gas.gamma:ℝ) * (M:ℝ)^2) ≠ 0 := by
    have : ((1 + gas.gamma * M^2 : ℚ) : ℝ) ≠ 0 := by exact_mod_cast hd
    push_cast at this
    convert this using 2
  have hcR : (1 + ((gas.gamma:ℝ) - 1)/2 * (M:ℝ)^2) ≠ 0 := by
    have : ((1 + (gas.gamma - 1)/2 * M^2 : ℚ) : ℝ) ≠ 0 := by exact_mod_cast hc
    push_cast at this
    convert this using 2
  refine ⟨?_, ?_, ?_, ?_, ?_⟩
  · exact div_self hd
  · unfold rayleigh_temperature_ratio
    rw [div_self hd, one_pow, one_mul, div_self (pow_ne_zero 2 hM)]
  · unfold rayleigh_density_ratio
    rw [div_self hd, one_mul, div_self (pow_ne_zero 2 hM)]
  · unfold rayleigh_stagnation_temperature_ratio
    rw [div_self hd, div_self hc, one_pow, one_mul,
      div_self (pow_ne_zero 2 hM), one_mul]
  · unfold rayleigh_stagnation_pressure_ratio
    rw [div_self hdR, div_self hcR, Real.one_rpow, mul_one]

/-- Witness for C9: the equal-Mach identity instantiated at M = 2 with the
default air fluid. -/
theorem rayleigh_ratio_one_at_equal_mach_witness :
    (rayleigh_pressure_ratio 2 2 air = 1 ∧
    rayleigh_temperature_ratio 2 2 air = 1 ∧
    rayleigh_density_ratio 2 2 air = 1 ∧
    rayleigh_stagnation_temperature_ratio 2 2 air = 1 ∧
    rayleigh_stagnation_pressure_ratio ((2:ℚ) : ℝ) ((2:ℚ) : ℝ) air = 1) :=
  rayleigh_ratio_one_at_equal_mach 2 air (by norm_num [air]) (by norm_num)

/-- C10: ideal-gas consistency of the closed forms: the density ratio
times the temperature ratio equals the pressure ratio, for a fluid with
γ > 1 and nonzero Mach numbers. -/
theorem rayleigh_ideal_gas_consistency (M1 M2 : ℚ) (gas : fluid)
    (hg : 1 < gas.gamma) (h1 : M1 ≠ 0) (h2 : M2 ≠ 0) :
    rayleigh_density_ratio M1 M2 gas * rayleigh_temperature_ratio M1 M2 gas
      = rayleigh_pressure_ratio M1 M2 gas := by
  have hgp : (0:ℚ) < gas.gamma := lt_trans one_pos hg
  have hd1 : (1 + gas.gamma * M1^2) ≠ 0 := by
    have := mul_nonneg hgp.le (sq_nonneg M1); intro h; nlinarith
  have hd2 : (1 + gas.gamma * M2^2) ≠ 0 := by
    have := mul_nonneg hgp.le (sq_nonneg M2); intro h; nlinarith
  unfold rayleigh_density_ratio rayleigh_temperature_ratio
    rayleigh_pressure_ratio
  field_simp
  ring

/-- Witness for C10: the ideal-gas consistency instantiated at M1 = 2,
M2 = 3 with the default air fluid. -/
theorem rayleigh_ideal_gas_consistency_witness :
    rayleigh_density_ratio 2 3 air * rayleigh_temperature_ratio 2 3 air
      = rayleigh_pressure_ratio 2 3 air :=
  rayleigh_ideal_gas_consistency 2 3 air (by norm_num [air]) (by norm_num)
    (by norm_num)

/-- Witness for C4: the reciprocal identity instantiated at M1 = 2,
M2 = 3 with the default air fluid. -/
theorem rayleigh_reciprocal_identity_witness :
    (rayleigh_pressure_ratio 2 3 air = 1 / rayleigh_pressure_ratio 3 2 air ∧
    rayleigh_temperature_ratio 2 3 air
      = 1 / rayleigh_temperature_ratio 3 2 air ∧
    rayleigh_density_ratio 2 3 air = 1 / rayleigh_density_ratio 3 2 air ∧
    rayleigh_stagnation_temperature_ratio 2 3 air
      = 1 / rayleigh_stagnation_temperature_ratio 3 2 air ∧
    rayleigh_stagnation_pressure_ratio ((2:ℚ) : ℝ) ((3:ℚ) : ℝ) air
      = 1 / rayleigh_stagnation_pressure_ratio ((3:ℚ) : ℝ) ((2:ℚ) : ℝ) air) :=
  rayleigh_reciprocal_identity 2 3 air (by norm_num [air]) (by norm_num)
    (by norm_num)
